import Mathlib

/-!
Verification development for the dvbc-muxutils capture script
(src/capture_downstreams.py).

The script's core logic is embedded shallowly:

* Python string/number primitives used by the source (`str.lower`,
  `int(...)`, `str.join`, `{:02x}` formatting) are modelled as executable
  Lean functions over `String` / `List Char` (ASCII character model).
* `configparser` input is modelled at the level the source consumes it:
  a list of named sections, each an ordered list of raw key/value pairs.
  Interpolation-free values are assumed; option lookup is
  case-insensitive (configparser lowercases option names), section names
  are case-sensitive, and the strict duplicate-section / duplicate-option
  checks of `ConfigParser.read_file` are modelled.
* The generator `read_channels` and the orchestration loop of
  `dvb_record_filtered_channels` are modelled as explicit recursion
  producing a trace of external-process events plus an optional error.
  Exceptions raised by the Python code (KeyError on a missing option,
  ValueError from `int`, DuplicateSectionError) are represented as
  `ParseError` values carrying the section/field context of the raise
  site; `subprocess.call` is an oracle from command vectors to exit
  codes, whose result the source ignores.
-/

/-- Model of Python `str.lower` for ASCII text (`Char.toLower` lowercases
exactly the ASCII uppercase letters). Used for `DELIVERY_SYSTEM.lower()`
and for configparser's option-name normalization. -/
def pyLower (s : String) : String :=
  String.mk (s.data.map Char.toLower)

/-- Model of the whitespace stripping `int(...)` performs on its argument. -/
def pyStrip (s : String) : List Char :=
  ((s.data.dropWhile Char.isWhitespace).reverse.dropWhile Char.isWhitespace).reverse

/-- Digit-run validity for Python `int(...)` literals: a nonempty run of
decimal digits in which an underscore may appear only between two digits.
The flag records whether the previous character was a digit (so an
underscore is allowed next). -/
def validUnderscoreDigits : List Char → Bool → Bool
  | [], afterDigit => afterDigit
  | '_' :: rest, true => validUnderscoreDigits rest false
  | c :: rest, _ => c.isDigit && validUnderscoreDigits rest true

/-- Numeric value of a digit run, skipping grouping underscores. -/
def digitsToNat (cs : List Char) : Nat :=
  cs.foldl (fun acc c => if c = '_' then acc else acc * 10 + (c.toNat - 48)) 0

/-- Model of Python `int(s)` (base 10): optional surrounding whitespace,
optional single sign, then a valid digit run; any other input raises
ValueError, modelled as `none`. -/
def pyInt (s : String) : Option Int :=
  match pyStrip s with
  | '+' :: rest =>
    if validUnderscoreDigits rest false then some (Int.ofNat (digitsToNat rest)) else none
  | '-' :: rest =>
    if validUnderscoreDigits rest false then some (-Int.ofNat (digitsToNat rest)) else none
  | cs =>
    if validUnderscoreDigits cs false then some (Int.ofNat (digitsToNat cs)) else none

/-- Model of Python `sep.join(xs)`. -/
def pyJoin (sep : String) : List String → String
  | [] => ""
  | [x] => x
  | x :: y :: rest => x ++ sep ++ pyJoin sep (y :: rest)

/-- Lowercase hexadecimal digit character, as produced by Python `%x`
formatting. -/
def hexDigitChar (m : Nat) : Char :=
  if m < 10 then Char.ofNat (48 + m) else Char.ofNat (87 + m)

/-- Fuel-driven digit accumulator for `hexChars`: prepends the digits of
`n` (least significant first as it recurses, so most significant first in
the result) onto `acc`. The fuel only bounds the recursion depth;
`hexChars` always supplies enough. -/
def hexCharsGo : Nat → Nat → List Char → List Char
  | 0, _, acc => acc
  | fuel + 1, n, acc =>
    if n / 16 = 0 then hexDigitChar (n % 16) :: acc
    else hexCharsGo fuel (n / 16) (hexDigitChar (n % 16) :: acc)

/-- Lowercase hexadecimal digit string of a natural number, most
significant digit first (natural width, no padding). -/
def hexChars (n : Nat) : List Char :=
  hexCharsGo (n + 1) n []

/-- Model of Python `f"{p:02x}"`: lowercase hex, zero-padded on the left
to a minimum width of two digits. -/
def pyHex02 (n : Nat) : String :=
  String.mk (List.replicate (2 - (hexChars n).length) '0' ++ hexChars n)

/-- Per-PID predicate of the list comprehension in `pid_filter`
(source line 70): the f-string `f"(mp2t.pid == 0x{p:02x})"`. -/
def pidPred (p : Nat) : String :=
  "(mp2t.pid == 0x" ++ pyHex02 p ++ ")"

/-- Embedding of `pid_filter` (source lines 65-70): the `" || "`-join of
one equality predicate per element of `pids`. -/
def pid_filter (pids : List Nat) : String :=
  pyJoin (" || ") (pids.map pidPred)

/-- Filter string built for the keep case, source line 115:
`f"({pid_filter(pids)})"`. -/
def keepFilterStr (pids : List Nat) : String :=
  "(" ++ pid_filter pids ++ ")"

/-- Filter string built for the exclude case, source line 113:
`f"!({pid_filter(skip_pids)})"`. -/
def excludeFilterStr (pids : List Nat) : String :=
  "!(" ++ pid_filter pids ++ ")"

/-- Embedding of the `Channel` NamedTuple (source lines 28-39). -/
structure Channel where
  name : String
  delivery_system : String
  frequency : Int
  symbol_rate : Int
  inner_fec : String
  modulation : String
  inversion : String
deriving DecidableEq

/-- One bracketed section of the configuration text: its (case-sensitive)
name and its key/value lines in source order. -/
structure RawSection where
  name : String
  entries : List (String × String)
deriving DecidableEq

/-- Configuration text at the granularity the source consumes it:
sections in the order they appear. -/
abbrev ConfigText := List RawSection

/-- Errors raised while reading the configuration: DuplicateSectionError
and DuplicateOptionError from `ConfigParser.read_file`, KeyError from a
missing option lookup, ValueError from `int(...)`; each carries the
section/field context of the raise site. -/
inductive ParseError where
  | duplicateSection (sec : String)
  | duplicateOption (sec opt : String)
  | missingField (sec fld : String)
  | invalidNumber (sec fld : String)
deriving DecidableEq

/-- Decidable equality of `Except` results, needed to settle concrete
parses by `decide`. -/
instance {ε α : Type} [DecidableEq ε] [DecidableEq α] : DecidableEq (Except ε α) :=
  fun a b =>
    match a, b with
    | Except.ok x, Except.ok y =>
      if h : x = y then Decidable.isTrue (by rw [h])
        else Decidable.isFalse (by intro hh; cases hh; exact h rfl)
    | Except.ok _, Except.error _ => Decidable.isFalse (by intro hh; cases hh)
    | Except.error _, Except.ok _ => Decidable.isFalse (by intro hh; cases hh)
    | Except.error x, Except.error y =>
      if h : x = y then Decidable.isTrue (by rw [h])
        else Decidable.isFalse (by intro hh; cases hh; exact h rfl)

/-- Case-insensitive option lookup, modelling
`config[name][KEY]` (configparser lowercases option names on storage and
lookup; the first matching entry wins). -/
def look (s : RawSection) (k : String) : Option String :=
  match s.entries.find? (fun e => pyLower e.fst == pyLower k) with
  | some e => some e.snd
  | none => none

/-- First element of `xs` that occurs again later in `xs`, if any. -/
def firstDup : List String → Option String
  | [] => none
  | x :: xs => if x ∈ xs then some x else firstDup xs

/-- Embedding of the whole-file parse performed by
`config.read_file(channels)` (source line 48), restricted to the checks
it can fail: a repeated section name raises DuplicateSectionError when
the second occurrence is reached, and a repeated (lowercased) option
name within a section raises DuplicateOptionError. `seen` is the list of
section names already parsed. -/
def read_file_go : List String → List RawSection → Except ParseError Unit
  | _, [] => Except.ok ()
  | seen, s :: rest =>
    if s.name ∈ seen then Except.error (ParseError.duplicateSection s.name)
    else
      match firstDup (s.entries.map (fun e => pyLower e.fst)) with
      | some k => Except.error (ParseError.duplicateOption s.name k)
      | none => read_file_go (s.name :: seen) rest

/-- Construction of one `Channel` from its section (source lines 52-60),
with the lookups and `int` conversions performed in Python's left-to-right
keyword-argument order: DELIVERY_SYSTEM, FREQUENCY, SYMBOL_RATE,
INNER_FEC, MODULATION, INVERSION. A missing key is a KeyError
(`missingField`), a failing `int` a ValueError (`invalidNumber`). -/
def buildChannel (s : RawSection) : Except ParseError Channel :=
  match look s ("DELIVERY_SYSTEM") with
  | none => Except.error (ParseError.missingField s.name ("DELIVERY_SYSTEM"))
  | some ds =>
    match look s ("FREQUENCY") with
    | none => Except.error (ParseError.missingField s.name ("FREQUENCY"))
    | some fv =>
      match pyInt fv with
      | none => Except.error (ParseError.invalidNumber s.name ("FREQUENCY"))
      | some f =>
        match look s ("SYMBOL_RATE") with
        | none => Except.error (ParseError.missingField s.name ("SYMBOL_RATE"))
        | some sv =>
          match pyInt sv with
          | none => Except.error (ParseError.invalidNumber s.name ("SYMBOL_RATE"))
          | some sr =>
            match look s ("INNER_FEC") with
            | none => Except.error (ParseError.missingField s.name ("INNER_FEC"))
            | some fec =>
              match look s ("MODULATION") with
              | none => Except.error (ParseError.missingField s.name ("MODULATION"))
              | some md =>
                match look s ("INVERSION") with
                | none => Except.error (ParseError.missingField s.name ("INVERSION"))
                | some inv =>
                  Except.ok ⟨s.name, pyLower ds, f, sr, fec, md, inv⟩

/-- Channels produced by fully draining the generator body's loop
(source lines 50-60), first error wins. -/
def buildAll : List RawSection → Except ParseError (List Channel)
  | [] => Except.ok []
  | s :: rest =>
    match buildChannel s with
    | Except.error e => Except.error e
    | Except.ok c =>
      match buildAll rest with
      | Except.error e => Except.error e
      | Except.ok cs => Except.ok (c :: cs)

/-- Embedding of `read_channels` (source lines 42-62) fully evaluated:
the file-level parse checks, then one `Channel` per section in source
order. -/
def read_channels (cfg : ConfigText) : Except ParseError (List Channel) :=
  match read_file_go [] cfg with
  | Except.error e => Except.error e
  | Except.ok _ => buildAll cfg

/-- Embedding of `freq_mhz = channel.frequency // 10**6`
(source lines 83 and 118); Python `//` on ints is floor division. -/
def freq_mhz (c : Channel) : Int :=
  Int.fdiv c.frequency (10 ^ 6)

/-- Output file name of the raw capture
(source line 84): `f"{path}/{prefix}_{channel.name}_{freq_mhz}.ts"`. -/
def output_file_name_raw (path pre : String) (c : Channel) : String :=
  path ++ "/" ++ pre ++ "_" ++ c.name ++ "_" ++ toString (freq_mhz c) ++ ".ts"

/-- Output file name of the filtered capture (source line 119). -/
def output_file_name_filtered (path pre : String) (c : Channel) : String :=
  path ++ "/" ++ pre ++ "_" ++ c.name ++ "_" ++ toString (freq_mhz c) ++ ".pcapng"

/-- Name component of a path: the characters after the last slash. -/
def baseName (s : String) : String :=
  String.mk ((s.data.reverse.takeWhile (fun c => c ≠ '/')).reverse)

/-- Capture command vector (source lines 121-126). -/
def capture_cmd (config_file : String) (duration : Int) (chName : String) : List String :=
  ["/usr/bin/dvbv5-zap", "-c", config_file, "-P", "-t", toString duration, chName,
   "-o", "tmp.ts"]

/-- Filter command vector (source lines 131-134). -/
def filter_cmd (filter_str out : String) : List String :=
  ["/usr/bin/tshark", "-r", "tmp.ts", "-R", filter_str, "-2", "-w", out]

/-- Observable external effects of a run: a `subprocess.call` of a
command vector (with the exit code the process runner reported, which the
source ignores), or the `os.remove('tmp.ts')` cleanup. -/
inductive Event where
  | call (cmd : List String) (exitCode : Int)
  | removeTmp
deriving DecidableEq

/-- Errors of a filtered run: a configuration parse error, or the
mutually-exclusive-selectors abort printed at source lines 108-111. -/
inductive RunError where
  | parse (e : ParseError)
  | mutuallyExclusiveSelectors
deriving DecidableEq

/-- Capture/filter loop of `dvb_record_filtered_channels`
(source lines 117-139) interleaved with the generator: for each section
in turn the channel is built (a failure stops the run with that parse
error), then the capture call, the filter call and the `os.remove`
cleanup are performed. `oracle` is the process runner reporting exit
codes. -/
def runLoop (oracle : List String → Int) (config_file pre path : String)
    (duration : Int) (filter_str : String) :
    List RawSection → List Event × Option RunError
  | [] => ([], none)
  | s :: rest =>
    match buildChannel s with
    | Except.error e => ([], some (RunError.parse e))
    | Except.ok ch =>
      (Event.call (capture_cmd config_file duration ch.name)
         (oracle (capture_cmd config_file duration ch.name)) ::
       Event.call (filter_cmd filter_str (output_file_name_filtered path pre ch))
         (oracle (filter_cmd filter_str (output_file_name_filtered path pre ch))) ::
       Event.removeTmp ::
       (runLoop oracle config_file pre path duration filter_str rest).fst,
       (runLoop oracle config_file pre path duration filter_str rest).snd)

/-- Embedding of `dvb_record_filtered_channels` (source lines 96-139):
the mutual-exclusion guard, the filter-string construction, the
file-level parse (run by the generator before its first yield, hence
before any subprocess call), then the capture/filter loop. The result is
the trace of external events and the error, if any, that ended the run. -/
def dvb_record_filtered_channels (oracle : List String → Int) (cfg : ConfigText)
    (config_file pre path : String) (duration : Int)
    (skip_pids pids : List Nat) : List Event × Option RunError :=
  if skip_pids ≠ [] ∧ pids ≠ [] then ([], some RunError.mutuallyExclusiveSelectors)
  else
    match read_file_go [] cfg with
    | Except.error e => ([], some (RunError.parse e))
    | Except.ok _ =>
      runLoop oracle config_file pre path duration
        (if skip_pids ≠ [] then excludeFilterStr skip_pids else keepFilterStr pids) cfg

/-- Test whether an event is an invocation of the external filter tool. -/
def isTshark : Event → Bool
  | Event.call cmd _ => cmd.head? == some ("/usr/bin/tshark")
  | Event.removeTmp => false

/-- Every invocation of the external filter tool in the trace is
immediately followed by the temporary-file cleanup. -/
def cleanupAfterFilter : List Event → Bool
  | [] => true
  | e :: rest =>
    ((!isTshark e) || rest.head? == some Event.removeTmp) && cleanupAfterFilter rest

/-- Pointwise relation between a source section and the descriptor read
from it: name taken from the section header, DELIVERY_SYSTEM lowercased,
FREQUENCY and SYMBOL_RATE parsed as base-10 integers, the remaining
fields passed through verbatim. -/
def descrMatches (s : RawSection) (c : Channel) : Prop :=
  c.name = s.name ∧
  (∃ v, look s ("DELIVERY_SYSTEM") = some v ∧ c.delivery_system = pyLower v) ∧
  (∃ v n, look s ("FREQUENCY") = some v ∧ pyInt v = some n ∧ c.frequency = n) ∧
  (∃ v n, look s ("SYMBOL_RATE") = some v ∧ pyInt v = some n ∧ c.symbol_rate = n) ∧
  (∃ v, look s ("INNER_FEC") = some v ∧ c.inner_fec = v) ∧
  (∃ v, look s ("MODULATION") = some v ∧ c.modulation = v) ∧
  (∃ v, look s ("INVERSION") = some v ∧ c.inversion = v)

/-- Example configuration of the spec's end-to-end test: one section
named Mux1 with the six required keys. -/
def exampleCfg : ConfigText :=
  [⟨"Mux1",
    [("DELIVERY_SYSTEM", "DVBC/ANNEX_A"), ("FREQUENCY", "474000000"),
     ("SYMBOL_RATE", "6900000"), ("INNER_FEC", "NONE"),
     ("MODULATION", "QAM256"), ("INVERSION", "OFF")]⟩]

/-- Descriptor read from `exampleCfg`. -/
def muxCh : Channel :=
  ⟨"Mux1", "dvbc/annex_a", 474000000, 6900000, "NONE", "QAM256", "OFF"⟩

/-- Well-formed section used in concrete runs. -/
def goodSec : RawSection :=
  ⟨"Mux1",
   [("DELIVERY_SYSTEM", "DVBC/ANNEX_A"), ("FREQUENCY", "474000000"),
    ("SYMBOL_RATE", "6900000"), ("INNER_FEC", "NONE"),
    ("MODULATION", "QAM256"), ("INVERSION", "OFF")]⟩

/-- Section whose FREQUENCY value is not a number. -/
def badSec : RawSection :=
  ⟨"Mux2",
   [("DELIVERY_SYSTEM", "DVBC/ANNEX_A"), ("FREQUENCY", "notanumber"),
    ("SYMBOL_RATE", "6900000"), ("INNER_FEC", "NONE"),
    ("MODULATION", "QAM256"), ("INVERSION", "OFF")]⟩

/-- Configuration whose second section is malformed. -/
def cexCfg5 : ConfigText := [goodSec, badSec]

/-- One-section configuration used for empty-selector runs. -/
def cfg1 : ConfigText := [goodSec]

/-- Section that both lacks DELIVERY_SYSTEM and has a non-numeric
FREQUENCY value. -/
def cexSec6 : RawSection :=
  ⟨"Mux1",
   [("FREQUENCY", "abc"), ("SYMBOL_RATE", "6900000"), ("INNER_FEC", "NONE"),
    ("MODULATION", "QAM256"), ("INVERSION", "OFF")]⟩

theorem hexDigitChar_ne_eq (m : Nat) (hm : m < 16) : hexDigitChar m ≠ '=' := by
  have h : ∀ i : Fin 16, hexDigitChar i.val ≠ '=' := by decide
  exact h ⟨m, hm⟩

theorem eq_not_mem_hexCharsGo : ∀ (fuel n : Nat) (acc : List Char),
    '=' ∉ acc → '=' ∉ hexCharsGo fuel n acc := by
  intro fuel
  induction fuel with
  | zero => intro n acc h; simpa [hexCharsGo] using h
  | succ f ih =>
    intro n acc h
    have hd : '=' ∉ hexDigitChar (n % 16) :: acc := by
      intro hmem
      rcases List.mem_cons.mp hmem with h1 | h2
      · exact hexDigitChar_ne_eq (n % 16) (Nat.mod_lt n (by omega)) h1.symm
      · exact h h2
    simp only [hexCharsGo]
    split
    · exact hd
    · exact ih (n / 16) _ hd

theorem eq_not_mem_hexChars (n : Nat) : '=' ∉ hexChars n :=
  eq_not_mem_hexCharsGo (n + 1) n [] (by simp)

theorem count_eq_pyHex02 (n : Nat) : (pyHex02 n).data.count '=' = 0 := by
  show (List.replicate (2 - (hexChars n).length) '0' ++ hexChars n).count '=' = 0
  rw [List.count_append]
  rw [List.count_eq_zero.mpr (eq_not_mem_hexChars n)]
  rw [List.count_eq_zero.mpr (by
    intro hmem
    rcases List.mem_replicate.mp hmem with ⟨-, h2⟩
    exact absurd h2 (by decide))]

theorem count_eq_pidPred (p : Nat) : (pidPred p).data.count '=' = 2 := by
  show ((("(mp2t.pid == 0x" : String) ++ pyHex02 p ++ (")" : String)).data).count '=' = 2
  rw [String.data_append, String.data_append, List.count_append, List.count_append]
  rw [count_eq_pyHex02]
  decide

theorem count_eq_pid_filter : ∀ pids : List Nat,
    (pid_filter pids).data.count '=' = 2 * pids.length := by
  intro pids
  induction pids with
  | nil => decide
  | cons p rest ih =>
    cases rest with
    | nil =>
      have h1 : pid_filter [p] = pidPred p := rfl
      rw [h1, count_eq_pidPred]
      simp
    | cons q rest2 =>
      have hcons : pid_filter (p :: q :: rest2) =
          pidPred p ++ (" || " : String) ++ pid_filter (q :: rest2) := rfl
      rw [hcons, String.data_append, String.data_append, List.count_append,
        List.count_append, count_eq_pidPred, ih]
      have hsep : ((" || " : String)).data.count '=' = 0 := by decide
      rw [hsep]
      simp [List.length_cons]
      ring

theorem pid_filter_cons (p : Nat) (rest : List Nat) (h : rest ≠ []) :
    pid_filter (p :: rest) = pidPred p ++ (" || " : String) ++ pid_filter rest := by
  cases rest with
  | nil => exact absurd rfl h
  | cons q rest2 => rfl

theorem hexCharsGo_length_mono : ∀ (fuel n : Nat) (acc : List Char),
    acc.length ≤ (hexCharsGo fuel n acc).length := by
  intro fuel
  induction fuel with
  | zero => intro n acc; simp [hexCharsGo]
  | succ f ih =>
    intro n acc
    simp only [hexCharsGo]
    split
    · simp
    · exact le_trans (by simp) (ih (n / 16) (hexDigitChar (n % 16) :: acc))

theorem hexCharsGo_length_succ (fuel n : Nat) (acc : List Char) :
    acc.length + 1 ≤ (hexCharsGo (fuel + 1) n acc).length := by
  simp only [hexCharsGo]
  split
  · simp
  · have h := hexCharsGo_length_mono fuel (n / 16) (hexDigitChar (n % 16) :: acc)
    simpa using h

theorem hexChars_length_pos (n : Nat) : 1 ≤ (hexChars n).length := by
  have h := hexCharsGo_length_succ n n []
  simpa [hexChars] using h

theorem hexChars_length_two (n : Nat) (h : 16 ≤ n) : 2 ≤ (hexChars n).length := by
  have hne : ¬ n / 16 = 0 := by
    have h2 : 0 < n / 16 := Nat.div_pos h (by omega)
    omega
  show 2 ≤ (hexCharsGo (n + 1) n []).length
  simp only [hexCharsGo]
  rw [if_neg hne]
  obtain ⟨m, rfl⟩ : ∃ m, n = m + 1 := ⟨n - 1, by omega⟩
  have h3 := hexCharsGo_length_succ m ((m + 1) / 16) [hexDigitChar ((m + 1) % 16)]
  simpa using h3

theorem pyHex02_length (n : Nat) : 2 ≤ (pyHex02 n).length := by
  show 2 ≤ (List.replicate (2 - (hexChars n).length) '0' ++ hexChars n).length
  rw [List.length_append, List.length_replicate]
  have h := hexChars_length_pos n
  omega

theorem pyHex02_natural (n : Nat) (h : 16 ≤ n) : pyHex02 n = String.mk (hexChars n) := by
  unfold pyHex02
  have h2 := hexChars_length_two n h
  rw [show 2 - (hexChars n).length = 0 from by omega]
  simp

theorem excludeFilterStr_eq_neg (pids : List Nat) :
    excludeFilterStr pids = ("!" : String) ++ keepFilterStr pids := by
  apply String.ext
  show (("!(" : String) ++ pid_filter pids ++ (")" : String)).data =
    (("!" : String) ++ (("(" : String) ++ pid_filter pids ++ (")" : String))).data
  simp [String.data_append]

theorem buildChannel_ok {s : RawSection} {c : Channel}
    (h : buildChannel s = Except.ok c) : descrMatches s c := by
  unfold buildChannel at h
  split at h
  · exact Except.noConfusion h
  next ds hds =>
  split at h
  · exact Except.noConfusion h
  next fv hfv =>
  split at h
  · exact Except.noConfusion h
  next f hf =>
  split at h
  · exact Except.noConfusion h
  next sv hsv =>
  split at h
  · exact Except.noConfusion h
  next sr hsr =>
  split at h
  · exact Except.noConfusion h
  next fec hfec =>
  split at h
  · exact Except.noConfusion h
  next md hmd =>
  split at h
  · exact Except.noConfusion h
  next inv hinv =>
  injection h with h2
  subst h2
  exact ⟨rfl, ⟨ds, hds, rfl⟩, ⟨fv, f, hfv, hf, rfl⟩, ⟨sv, sr, hsv, hsr, rfl⟩,
    ⟨fec, hfec, rfl⟩, ⟨md, hmd, rfl⟩, ⟨inv, hinv, rfl⟩⟩

theorem buildAll_ok : ∀ {l : List RawSection} {cs : List Channel},
    buildAll l = Except.ok cs →
    List.Forall₂ (fun s c => buildChannel s = Except.ok c) l cs := by
  intro l
  induction l with
  | nil =>
    intro cs h
    unfold buildAll at h
    injection h with h2
    subst h2
    exact List.Forall₂.nil
  | cons s rest ih =>
    intro cs h
    unfold buildAll at h
    split at h
    · exact Except.noConfusion h
    next c hc =>
    split at h
    · exact Except.noConfusion h
    next cs2 hcs2 =>
    injection h with h2
    subst h2
    exact List.Forall₂.cons hc (ih hcs2)

theorem buildAll_append_error {good : List RawSection} {bad : RawSection}
    {rest : List RawSection} {e : ParseError}
    (hg : ∀ s ∈ good, ∃ c, buildChannel s = Except.ok c)
    (hb : buildChannel bad = Except.error e) :
    buildAll (good ++ bad :: rest) = Except.error e := by
  induction good with
  | nil =>
    simp only [List.nil_append]
    unfold buildAll
    rw [hb]
  | cons g good2 ih =>
    obtain ⟨c, hc⟩ := hg g (by simp)
    have ih2 := ih (fun s hs => hg s (by simp [hs]))
    simp only [List.cons_append]
    unfold buildAll
    rw [hc, ih2]

theorem buildChannel_freq_invalid {s : RawSection} {d v : String}
    (hds : look s ("DELIVERY_SYSTEM") = some d)
    (hfv : look s ("FREQUENCY") = some v) (hpi : pyInt v = none) :
    buildChannel s = Except.error (ParseError.invalidNumber s.name ("FREQUENCY")) := by
  simp only [buildChannel, hds, hfv, hpi]

theorem buildChannel_rate_invalid {s : RawSection} {d fv v : String} {n : Int}
    (hds : look s ("DELIVERY_SYSTEM") = some d)
    (hfv : look s ("FREQUENCY") = some fv) (hfi : pyInt fv = some n)
    (hsv : look s ("SYMBOL_RATE") = some v) (hpi : pyInt v = none) :
    buildChannel s = Except.error (ParseError.invalidNumber s.name ("SYMBOL_RATE")) := by
  simp only [buildChannel, hds, hfv, hfi, hsv, hpi]

theorem read_channels_of_buildAll {cfg : ConfigText}
    (hrf : read_file_go [] cfg = Except.ok ()) :
    read_channels cfg = buildAll cfg := by
  unfold read_channels
  rw [hrf]

theorem runLoop_append_error (oracle : List String → Int)
    (config_file pre path : String) (duration : Int) (filter_str : String)
    {good : List RawSection} {bad : RawSection} {rest : List RawSection} {e : ParseError}
    (hg : ∀ s ∈ good, ∃ c, buildChannel s = Except.ok c)
    (hb : buildChannel bad = Except.error e) :
    ∃ evs, runLoop oracle config_file pre path duration filter_str (good ++ bad :: rest) =
      (evs, some (RunError.parse e)) ∧ evs.length = 3 * good.length := by
  induction good with
  | nil =>
    refine ⟨[], ?_, rfl⟩
    simp only [List.nil_append]
    unfold runLoop
    rw [hb]
  | cons g good2 ih =>
    obtain ⟨c, hc⟩ := hg g (by simp)
    obtain ⟨evs2, heq2, hlen2⟩ := ih (fun s hs => hg s (by simp [hs]))
    refine ⟨Event.call (capture_cmd config_file duration c.name)
        (oracle (capture_cmd config_file duration c.name)) ::
      Event.call (filter_cmd filter_str (output_file_name_filtered path pre c))
        (oracle (filter_cmd filter_str (output_file_name_filtered path pre c))) ::
      Event.removeTmp :: evs2, ?_, ?_⟩
    · simp only [List.cons_append]
      unfold runLoop
      rw [hc, heq2]
    · simp [hlen2, List.length_cons]
      ring

theorem runLoop_snd_cases (oracle : List String → Int)
    (config_file pre path : String) (duration : Int) (filter_str : String) :
    ∀ l : List RawSection,
      (runLoop oracle config_file pre path duration filter_str l).snd = none ∨
      ∃ e, (runLoop oracle config_file pre path duration filter_str l).snd =
        some (RunError.parse e) := by
  intro l
  induction l with
  | nil => exact Or.inl rfl
  | cons s rest ih =>
    cases hb : buildChannel s with
    | error e =>
      refine Or.inr ⟨e, ?_⟩
      unfold runLoop
      rw [hb]
    | ok c =>
      have hred : (runLoop oracle config_file pre path duration filter_str (s :: rest)).snd =
          (runLoop oracle config_file pre path duration filter_str rest).snd := by
        conv_lhs => unfold runLoop
        rw [hb]
      rw [hred]
      exact ih

theorem cleanupAfterFilter_runLoop (oracle : List String → Int)
    (config_file pre path : String) (duration : Int) (filter_str : String) :
    ∀ l : List RawSection,
      cleanupAfterFilter (runLoop oracle config_file pre path duration filter_str l).fst =
        true := by
  intro l
  induction l with
  | nil => rfl
  | cons s rest ih =>
    cases hb : buildChannel s with
    | error e =>
      have hred : (runLoop oracle config_file pre path duration filter_str (s :: rest)).fst =
          [] := by
        unfold runLoop
        rw [hb]
      rw [hred]
      rfl
    | ok c =>
      have hred : (runLoop oracle config_file pre path duration filter_str (s :: rest)).fst =
          Event.call (capture_cmd config_file duration c.name)
            (oracle (capture_cmd config_file duration c.name)) ::
          Event.call (filter_cmd filter_str (output_file_name_filtered path pre c))
            (oracle (filter_cmd filter_str (output_file_name_filtered path pre c))) ::
          Event.removeTmp ::
          (runLoop oracle config_file pre path duration filter_str rest).fst := by
        conv_lhs => unfold runLoop
        rw [hb]
      rw [hred]
      simp [cleanupAfterFilter, isTshark, capture_cmd, filter_cmd, ih]

/-- C1 (amended): for every non-empty PID list, `pid_filter` emits exactly
one equality predicate per PID (witnessed by the count of `=` characters,
two per predicate), each PID rendered by `{:02x}` in lowercase hex padded
to at least two digits and at natural width from 16 upwards, and the keep
filter string wraps the disjunction in one extra pair of parentheses; the
predicates compare the field `mp2t.pid`, so the keep build for PID 8191
is the string of `((mp2t.pid == 0x1fff))` and the bare disjunction is
`(mp2t.pid == 0x1fff)`, not the spec's `(pid == 0x1fff)`. -/
theorem claim_C1 :
    (∀ pids : List Nat, pids ≠ [] →
      (pid_filter pids).data.count '=' = 2 * pids.length ∧
      keepFilterStr pids = ("(" : String) ++ pid_filter pids ++ (")" : String) ∧
      ∀ p ∈ pids, 2 ≤ (pyHex02 p).length ∧
        (16 ≤ p → pyHex02 p = String.mk (hexChars p))) ∧
    pid_filter [8191] = ("(mp2t.pid == 0x1fff)") ∧
    keepFilterStr [8191] = ("((mp2t.pid == 0x1fff))") := by
  refine ⟨?_, by decide, by decide⟩
  intro pids _
  refine ⟨count_eq_pid_filter pids, rfl, ?_⟩
  intro p _
  exact ⟨pyHex02_length p, fun h16 => pyHex02_natural p h16⟩

/-- C1 witness: the amended theorem evaluated at the one-element list
containing 8191. -/
theorem claim_C1_w :
    (pid_filter [8191]).data.count '=' = 2 * List.length [8191] ∧
    2 ≤ (pyHex02 8191).length ∧ pyHex02 8191 = String.mk (hexChars 8191) :=
  ⟨(claim_C1.1 [8191] (by decide)).1,
   ((claim_C1.1 [8191] (by decide)).2.2 8191 (by decide)).1,
   ((claim_C1.1 [8191] (by decide)).2.2 8191 (by decide)).2 (by decide)⟩

/-- C1 counterexample: neither the bare disjunction nor the keep filter
string for PID 8191 is the claimed `(pid == 0x1fff)` — the field name in
the source is `mp2t.pid`. -/
theorem claim_C1_cex :
    keepFilterStr [8191] ≠ ("(pid == 0x1fff)") ∧
    pid_filter [8191] ≠ ("(pid == 0x1fff)") := by
  decide

/-- C2: every successful read yields one descriptor per section, in
source order, with FREQUENCY and SYMBOL_RATE parsed as base-10 integers,
DELIVERY_SYSTEM lowercased, and name, INNER_FEC, MODULATION and
INVERSION passed through verbatim. -/
theorem claim_C2 (cfg : ConfigText) (chans : List Channel)
    (h : read_channels cfg = Except.ok chans) :
    chans.length = cfg.length ∧ List.Forall₂ descrMatches cfg chans := by
  have hbo : buildAll cfg = Except.ok chans := by
    unfold read_channels at h
    split at h
    · exact Except.noConfusion h
    · exact h
  have hf := buildAll_ok hbo
  exact ⟨(List.Forall₂.length_eq hf).symm, hf.imp (fun s c hc => buildChannel_ok hc)⟩

/-- C2 witness: the spec's Mux1 example configuration reads to exactly
its one expected descriptor. -/
theorem claim_C2_w :
    List.length [muxCh] = List.length exampleCfg ∧
    List.Forall₂ descrMatches exampleCfg [muxCh] :=
  claim_C2 exampleCfg [muxCh] (by decide)

/-- C3 (amended): the exclude filter string is the exact negation (a
prepended `!`) of the keep filter string for the same PID list; the
concrete strings for the PID set containing 0 and 17 use the source's
`mp2t.pid` field name, not the spec's bare `pid`. -/
theorem claim_C3 :
    (∀ pids : List Nat, excludeFilterStr pids = ("!" : String) ++ keepFilterStr pids) ∧
    excludeFilterStr [0, 17] = ("!((mp2t.pid == 0x00) || (mp2t.pid == 0x11))") ∧
    keepFilterStr [0, 17] = ("((mp2t.pid == 0x00) || (mp2t.pid == 0x11))") := by
  exact ⟨excludeFilterStr_eq_neg, by decide, by decide⟩

/-- C3 counterexample: the exclude build for the PID set containing 0 and
17 is not the spec's example string, whose field name omits the `mp2t.`
prefix. -/
theorem claim_C3_cex :
    excludeFilterStr [0, 17] ≠ ("!((pid == 0x00) || (pid == 0x11))") ∧
    keepFilterStr [0, 17] ≠ ("((pid == 0x00) || (pid == 0x11))") := by
  decide

/-- C4: when both a keep list and an exclude list are supplied non-empty,
the filtered run aborts immediately with the mutually-exclusive-selectors
diagnostic: the result is independent of the configuration, no external
event is emitted, no filter string is consumed and no channel is read. -/
theorem claim_C4 (oracle : List String → Int) (cfg : ConfigText)
    (config_file pre path : String) (duration : Int) (skip_pids pids : List Nat)
    (h1 : skip_pids ≠ []) (h2 : pids ≠ []) :
    dvb_record_filtered_channels oracle cfg config_file pre path duration skip_pids pids =
      ([], some RunError.mutuallyExclusiveSelectors) := by
  unfold dvb_record_filtered_channels
  rw [if_pos ⟨h1, h2⟩]

/-- C4 witness: the abort at a concrete configuration and concrete
non-empty keep and exclude lists. -/
theorem claim_C4_w :
    dvb_record_filtered_channels (fun _ => 0) exampleCfg ("d.conf") ("Capture") (".") 45
      [0] [17] = ([], some RunError.mutuallyExclusiveSelectors) :=
  claim_C4 (fun _ => 0) exampleCfg ("d.conf") ("Capture") (".") 45 [0] [17]
    (by decide) (by decide)

/-- C5 (amended): when the mutual-exclusion guard passes, the whole-file
parse succeeds, the first `k` sections are well-formed and section `k` is
malformed, the filtered run fails with that section's parse error after
emitting exactly `3 * k` external events (capture, filter and cleanup for
each earlier section) — so the failure precedes all external invocations
exactly when the malformed section is the first one, while a malformed
later section is reached only after earlier sections were captured and
filtered. -/
theorem claim_C5 (oracle : List String → Int) (config_file pre path : String)
    (duration : Int) (skip_pids pids : List Nat)
    (good : List RawSection) (bad : RawSection) (rest : List RawSection) (e : ParseError)
    (hguard : skip_pids = [] ∨ pids = [])
    (hrf : read_file_go [] (good ++ bad :: rest) = Except.ok ())
    (hg : ∀ s ∈ good, ∃ c, buildChannel s = Except.ok c)
    (hb : buildChannel bad = Except.error e) :
    (dvb_record_filtered_channels oracle (good ++ bad :: rest) config_file pre path duration
        skip_pids pids).snd = some (RunError.parse e) ∧
    (dvb_record_filtered_channels oracle (good ++ bad :: rest) config_file pre path duration
        skip_pids pids).fst.length = 3 * good.length := by
  have hneg : ¬(skip_pids ≠ [] ∧ pids ≠ []) := by
    rcases hguard with h | h
    · exact fun hc => hc.1 h
    · exact fun hc => hc.2 h
  have hred : dvb_record_filtered_channels oracle (good ++ bad :: rest) config_file pre path
      duration skip_pids pids =
      runLoop oracle config_file pre path duration
        (if skip_pids ≠ [] then excludeFilterStr skip_pids else keepFilterStr pids)
        (good ++ bad :: rest) := by
    unfold dvb_record_filtered_channels
    rw [if_neg hneg, hrf]
  obtain ⟨evs, heq, hlen⟩ := runLoop_append_error oracle config_file pre path duration
    (if skip_pids ≠ [] then excludeFilterStr skip_pids else keepFilterStr pids) hg hb
  rw [hred, heq]
  exact ⟨rfl, hlen⟩

/-- C5 witness: the amended theorem at a malformed first section — the
fail-fast case, zero external events. -/
theorem claim_C5_w :
    (dvb_record_filtered_channels (fun _ => 0) ([badSec, goodSec]) ("d.conf") ("Capture")
        (".") 45 [] [17]).snd =
      some (RunError.parse (ParseError.invalidNumber ("Mux2") ("FREQUENCY"))) ∧
    (dvb_record_filtered_channels (fun _ => 0) ([badSec, goodSec]) ("d.conf") ("Capture")
        (".") 45 [] [17]).fst.length = 3 * List.length ([] : List RawSection) :=
  claim_C5 (fun _ => 0) ("d.conf") ("Capture") (".") 45 [] [17] [] badSec [goodSec]
    (ParseError.invalidNumber ("Mux2") ("FREQUENCY")) (Or.inl rfl) (by decide)
    (fun s hs => absurd hs (List.not_mem_nil s)) (by decide)

/-- C5 counterexample: with a well-formed first section and a second
section whose FREQUENCY is not a number, the run emits three external
events — beginning with the dvbv5-zap capture of Mux1 — before failing
with the parse error, so external invocations do precede the parse
failure. -/
theorem claim_C5_cex :
    (dvb_record_filtered_channels (fun _ => 0) cexCfg5 ("d.conf") ("Capture") (".") 45
        [] [17]).snd = some (RunError.parse (ParseError.invalidNumber ("Mux2") ("FREQUENCY"))) ∧
    (dvb_record_filtered_channels (fun _ => 0) cexCfg5 ("d.conf") ("Capture") (".") 45
        [] [17]).fst.length = 3 ∧
    (dvb_record_filtered_channels (fun _ => 0) cexCfg5 ("d.conf") ("Capture") (".") 45
        [] [17]).fst.head? = some (Event.call (capture_cmd ("d.conf") 45 ("Mux1")) 0) := by
  decide

/-- C6 (amended): a non-numeric FREQUENCY (respectively SYMBOL_RATE)
value makes the read fail with the invalid-number error naming that
section and field, provided it is the first defect in evaluation order —
sections in source order, and within the section the DELIVERY_SYSTEM
lookup (and for SYMBOL_RATE also the FREQUENCY parse) precedes it; an
earlier defect fails the read first with its own error, and in either
case no descriptor is produced. -/
theorem claim_C6 :
    (∀ (good : List RawSection) (bad : RawSection) (rest : List RawSection) (v : String),
      read_file_go [] (good ++ bad :: rest) = Except.ok () →
      (∀ s ∈ good, ∃ c, buildChannel s = Except.ok c) →
      (∃ d, look bad ("DELIVERY_SYSTEM") = some d) →
      look bad ("FREQUENCY") = some v → pyInt v = none →
      read_channels (good ++ bad :: rest) =
        Except.error (ParseError.invalidNumber bad.name ("FREQUENCY"))) ∧
    (∀ (good : List RawSection) (bad : RawSection) (rest : List RawSection) (v : String),
      read_file_go [] (good ++ bad :: rest) = Except.ok () →
      (∀ s ∈ good, ∃ c, buildChannel s = Except.ok c) →
      (∃ d, look bad ("DELIVERY_SYSTEM") = some d) →
      (∃ fv n, look bad ("FREQUENCY") = some fv ∧ pyInt fv = some n) →
      look bad ("SYMBOL_RATE") = some v → pyInt v = none →
      read_channels (good ++ bad :: rest) =
        Except.error (ParseError.invalidNumber bad.name ("SYMBOL_RATE"))) := by
  constructor
  · intro good bad rest v hrf hg hds hfv hpi
    obtain ⟨d, hd⟩ := hds
    rw [read_channels_of_buildAll hrf]
    exact buildAll_append_error hg (buildChannel_freq_invalid hd hfv hpi)
  · intro good bad rest v hrf hg hds hfp hsv hpi
    obtain ⟨d, hd⟩ := hds
    obtain ⟨fv, n, hfv, hfi⟩ := hfp
    rw [read_channels_of_buildAll hrf]
    exact buildAll_append_error hg (buildChannel_rate_invalid hd hfv hfi hsv hpi)

/-- C6 witness: the FREQUENCY case of the amended theorem at a concrete
one-section configuration whose FREQUENCY is `notanumber`. -/
theorem claim_C6_w :
    read_channels [badSec] =
      Except.error (ParseError.invalidNumber ("Mux2") ("FREQUENCY")) :=
  claim_C6.1 [] badSec [] ("notanumber") (by decide)
    (fun s hs => absurd hs (List.not_mem_nil s))
    ⟨"DVBC/ANNEX_A", by decide⟩ (by decide) (by decide)

/-- C6 counterexample: a section with a non-numeric FREQUENCY value that
also lacks DELIVERY_SYSTEM fails with the missing-field error, not the
invalid-number error, because the DELIVERY_SYSTEM lookup is evaluated
first — so the claim's unconditional InvalidNumber does not hold. -/
theorem claim_C6_cex :
    look cexSec6 ("FREQUENCY") = some ("abc") ∧ pyInt ("abc") = none ∧
    read_channels [cexSec6] =
      Except.error (ParseError.missingField ("Mux1") ("DELIVERY_SYSTEM")) := by
  decide

/-- C7 (amended): with an empty keep list the builder neither fails nor
produces a permit-all expression: it succeeds and yields the degenerate
empty disjunction, the two-character string of an opening and a closing
parenthesis containing zero equality predicates, and a run with empty
selectors never ends with a selector error — only a parse error or
success is possible. -/
theorem claim_C7 :
    keepFilterStr [] = ("()") ∧ (keepFilterStr []).data.count '=' = 0 ∧
    (∀ (oracle : List String → Int) (cfg : ConfigText)
      (config_file pre path : String) (duration : Int),
      (dvb_record_filtered_channels oracle cfg config_file pre path duration [] []).snd =
        none ∨
      ∃ e, (dvb_record_filtered_channels oracle cfg config_file pre path duration
        [] []).snd = some (RunError.parse e)) := by
  refine ⟨by decide, by decide, ?_⟩
  intro oracle cfg config_file pre path duration
  have hneg : ¬(([] : List Nat) ≠ [] ∧ ([] : List Nat) ≠ []) := by simp
  cases hrf : read_file_go [] cfg with
  | error e =>
    refine Or.inr ⟨e, ?_⟩
    have hred : dvb_record_filtered_channels oracle cfg config_file pre path duration
        [] [] = ([], some (RunError.parse e)) := by
      unfold dvb_record_filtered_channels
      rw [if_neg hneg, hrf]
    rw [hred]
  | ok u =>
    have hred : dvb_record_filtered_channels oracle cfg config_file pre path duration
        [] [] = runLoop oracle config_file pre path duration (keepFilterStr []) cfg := by
      unfold dvb_record_filtered_channels
      rw [if_neg hneg, hrf]
      rfl
    rw [hred]
    exact runLoop_snd_cases oracle config_file pre path duration (keepFilterStr []) cfg

/-- C7 counterexample: the empty keep build does not fail and is not a
permit-all expression — it is the degenerate string of an opening and a
closing parenthesis, the filter step is still invoked with it (second
event of the run), and the run completes without error. -/
theorem claim_C7_cex :
    keepFilterStr [] = ("()") ∧ pid_filter [] = ("") ∧
    (dvb_record_filtered_channels (fun _ => 0) cfg1 ("d.conf") ("Capture") (".") 45
        [] []).snd = none ∧
    ((dvb_record_filtered_channels (fun _ => 0) cfg1 ("d.conf") ("Capture") (".") 45
        [] []).fst.drop 1).head? =
      some (Event.call (filter_cmd ("()") ("./Capture_Mux1_474.pcapng")) 0) := by
  decide

/-- C8: the display frequency is the floor division of the frequency in
Hertz by one million, the raw output path is built from the directory,
the prefix, the channel name and the display frequency, and the spec's
Mux1 example at 474000000 Hz yields display frequency 474 and — with the
default prefix and directory — the output path whose name component is
Capture_Mux1_474.ts. -/
theorem claim_C8 :
    (∀ c : Channel, freq_mhz c = Int.fdiv c.frequency 1000000) ∧
    (∀ (path pre : String) (c : Channel),
      output_file_name_raw path pre c =
        path ++ ("/" : String) ++ pre ++ ("_" : String) ++ c.name ++ ("_" : String) ++
          toString (freq_mhz c) ++ (".ts" : String)) ∧
    read_channels exampleCfg = Except.ok [muxCh] ∧
    freq_mhz muxCh = 474 ∧
    output_file_name_raw (".") ("Capture") muxCh = ("./Capture_Mux1_474.ts") ∧
    baseName (output_file_name_raw (".") ("Capture") muxCh) = ("Capture_Mux1_474.ts") := by
  refine ⟨?_, fun path pre c => rfl, by decide, by decide, by decide, by decide⟩
  intro c
  unfold freq_mhz
  norm_num

/-- C9: in every filtered run — whatever exit codes the external
processes report, including failing ones — each invocation of the
external filter tool in the event trace is immediately followed by the
removal of the temporary capture file. -/
theorem claim_C9 (oracle : List String → Int) (cfg : ConfigText)
    (config_file pre path : String) (duration : Int) (skip_pids pids : List Nat) :
    cleanupAfterFilter
      (dvb_record_filtered_channels oracle cfg config_file pre path duration
        skip_pids pids).fst = true := by
  by_cases hg : skip_pids ≠ [] ∧ pids ≠ []
  · have hred : dvb_record_filtered_channels oracle cfg config_file pre path duration
        skip_pids pids = ([], some RunError.mutuallyExclusiveSelectors) := by
      unfold dvb_record_filtered_channels
      rw [if_pos hg]
    rw [hred]
    rfl
  · cases hrf : read_file_go [] cfg with
    | error e =>
      have hred : dvb_record_filtered_channels oracle cfg config_file pre path duration
          skip_pids pids = ([], some (RunError.parse e)) := by
        unfold dvb_record_filtered_channels
        rw [if_neg hg, hrf]
      rw [hred]
      rfl
    | ok u =>
      have hred : dvb_record_filtered_channels oracle cfg config_file pre path duration
          skip_pids pids = runLoop oracle config_file pre path duration
            (if skip_pids ≠ [] then excludeFilterStr skip_pids else keepFilterStr pids)
            cfg := by
        unfold dvb_record_filtered_channels
        rw [if_neg hg, hrf]
      rw [hred]
      exact cleanupAfterFilter_runLoop oracle config_file pre path duration
        (if skip_pids ≠ [] then excludeFilterStr skip_pids else keepFilterStr pids) cfg

/-- C10: `pid_filter` emits exactly one equality predicate per element of
its input list (two `=` characters each, duplicates included), in list
order — the head predicate precedes the joined tail — and a list holding
17 twice yields the same predicate twice. -/
theorem claim_C10 :
    (∀ pids : List Nat, (pid_filter pids).data.count '=' = 2 * pids.length) ∧
    (∀ p : Nat, pid_filter [p] = pidPred p) ∧
    (∀ (p : Nat) (rest : List Nat), rest ≠ [] →
      pid_filter (p :: rest) = pidPred p ++ (" || " : String) ++ pid_filter rest) ∧
    pid_filter [17, 17] = ("(mp2t.pid == 0x11) || (mp2t.pid == 0x11)") := by
  exact ⟨count_eq_pid_filter, fun p => rfl, pid_filter_cons, by decide⟩

/-- C10 witness: the order equation evaluated at the duplicate list. -/
theorem claim_C10_w :
    pid_filter [17, 17] = pidPred 17 ++ (" || " : String) ++ pid_filter [17] :=
  claim_C10.2.2.1 17 [17] (by decide)
